import Mathlib

/-!
Verification of the OptMATH instance-generator collection.

Each generator module (`src/data/generators/*/*.py`) follows the same template:
`Generator.__init__` stores parameter values as attributes and optionally seeds
the global pseudo-random source, and `Generator.generate_instance` draws
concrete data from the configured ranges and assembles an optimization model.
This file gives a shallow embedding of the parts of that code that the
specification talks about, and proves (or refutes) the specification's claims
about them.

Modelling conventions:
* Python's global `random` module state is an explicit `RandState`: an infinite
  stream of raw draws plus a cursor.  `random.randint(lo, hi)` becomes
  `randint lo hi`, which consumes one raw draw and reduces it into `[lo, hi]`;
  the only facts used about it are determinism and the range bound, both of
  which hold of CPython's Mersenne Twister.
* Python dicts of parameters become association lists `List (String × PVal)`.
* Gurobi models become explicit records of variables, objective and linear
  constraints; `addConstr` calls append to the constraint list in program
  order.  String keys of the form `"item_3"` / `"city_3"` are represented by
  their numeric index (the naming scheme is injective).
* Exceptions (`TypeError` from argument unpacking, `IndexError`, `KeyError`)
  become `Except String` results.
-/

/-- A parameter value as it appears in a generator's parameter dictionary:
an integer `(min, max)` range tuple, a float `(min, max)` range tuple, a plain
integer, or a float (floats are embedded as rationals). -/
inductive PVal where
  | range (lo hi : Int)
  | rrange (lo hi : Rat)
  | num (n : Int)
  | rat (q : Rat)
deriving DecidableEq, Repr

/-- The parameter-attribute dictionary handling used by 52 of the 54 generator
files (e.g. `KnapSack/Knapsack.py` lines 30-34, `SetCover/SetCover.py` lines
34-40): `if parameters is None or not parameters: parameters =
default_parameters`, followed by `for key, value in parameters.items():
setattr(self, key, value)`.  The result is the dictionary whose items are set
as attributes. -/
def initParamsStrict (parameters : Option (List (String × PVal)))
    (defaults : List (String × PVal)) : List (String × PVal) :=
  match parameters with
  | none => defaults
  | some ps => if ps.isEmpty then defaults else ps

/-- The parameter-attribute dictionary handling used by `MCND/MCND.py` (lines
70-76) and `Structure_based_assignment/Structure_based_assignment.py` (lines
41-43): `if parameters is None: parameters = default_parameters`, followed by
the same `setattr` loop.  An empty dict is NOT replaced by the defaults. -/
def initParamsNoneOnly (parameters : Option (List (String × PVal)))
    (defaults : List (String × PVal)) : List (String × PVal) :=
  match parameters with
  | none => defaults
  | some ps => ps

/-- The `default_parameters` dict of `KnapSack/Knapsack.py`. -/
def knapsackDefaults : List (String × PVal) :=
  [("n_items", PVal.range 3 30),
   ("value_range", PVal.range 10 300),
   ("weight_range", PVal.range 1 50),
   ("capacity_ratio", PVal.rat (7/10))]

/-- The `default_parameters` dict of `SetCover/SetCover.py`. -/
def setCoverDefaults : List (String × PVal) :=
  [("n_sets", PVal.range 5 20),
   ("n_elements", PVal.range 10 30),
   ("density", PVal.rat (2/5)),
   ("cost_range", PVal.range 1 100)]

/-- The `default_parameters` dict of `MCND/MCND.py`. -/
def mcndDefaults : List (String × PVal) :=
  [("n_nodes", PVal.range 2 10),
   ("n_commodities", PVal.range 2 10),
   ("density", PVal.rat (3/10)),
   ("capacity_range", PVal.range 10 500),
   ("fixed_cost_range", PVal.range 100 5000),
   ("variable_cost_range", PVal.range 1 10),
   ("demand_range", PVal.range 10 20)]

/-- Looking up the attribute a generator ends up with for key `k` (Python dict
keys are unique, so first-match lookup agrees with `setattr` order). -/
def attrLookup (attrs : List (String × PVal)) (k : String) : Option PVal :=
  attrs.lookup k

/-- C1 (counterexample): with the non-empty user dict `{"n_items": (5, 10)}`,
which omits the default key `"value_range"`, `Generator.__init__` of
`KnapSack/Knapsack.py` does NOT set `value_range` at all, although the claim
says every omitted default key is still set with its default value. -/
theorem knapsack_init_no_merge_cex :
    attrLookup (initParamsStrict (some [("n_items", PVal.range 5 10)]) knapsackDefaults)
      "value_range" = none ∧
    attrLookup knapsackDefaults "value_range" = some (PVal.range 10 300) ∧
    attrLookup (initParamsStrict (some [("n_sets", PVal.range 2 4)]) setCoverDefaults)
      "cost_range" = none := by
  decide

/-- C1 (amended): `Generator.__init__` performs no merge.  For every non-empty
user-supplied parameters dict, the attributes set are exactly the user's
entries: each key present in the user's dict takes the user's value, and every
key absent from the user's dict (default or not) is left unset; the defaults
are used only when the dict is `None` or empty (in MCND-style generators, only
when it is `None`). -/
theorem init_no_merge (ps defaults : List (String × PVal)) (h : ps ≠ []) :
    initParamsStrict (some ps) defaults = ps ∧
    initParamsNoneOnly (some ps) defaults = ps ∧
    (∀ k, attrLookup (initParamsStrict (some ps) defaults) k = ps.lookup k) := by
  have hne : ps.isEmpty = false := by
    cases ps with
    | nil => exact absurd rfl h
    | cons a l => rfl
  refine ⟨?_, rfl, ?_⟩
  · simp [initParamsStrict, hne]
  · intro k
    simp [initParamsStrict, hne, attrLookup]

/-- C1 (witness for the amended theorem at the user dict `{"n_items": (5,10)}`
against the Knapsack defaults). -/
theorem init_no_merge_witness :
    initParamsStrict (some [("n_items", PVal.range 5 10)]) knapsackDefaults
      = [("n_items", PVal.range 5 10)] :=
  (init_no_merge [("n_items", PVal.range 5 10)] knapsackDefaults (by decide)).1

/-- C2 (counterexample): the generators do not all handle `parameters`
identically.  In `MCND/MCND.py` (and `Structure_based_assignment.py`) the
defaults are applied only when `parameters is None`: constructing with
`parameters={}` sets no parameter attribute at all — `n_nodes` is unset —
whereas `parameters=None` sets every default. -/
theorem init_empty_vs_none_cex :
    attrLookup (initParamsNoneOnly (some []) mcndDefaults) "n_nodes" = none ∧
    attrLookup (initParamsNoneOnly none mcndDefaults) "n_nodes"
      = some (PVal.range 2 10) ∧
    initParamsNoneOnly (some []) mcndDefaults ≠ initParamsNoneOnly none mcndDefaults := by
  decide

/-- C2 (amended): in the 52 generator files that guard with `if parameters is
None or not parameters` the two calls `parameters=None` and `parameters={}`
coincide: both set every default parameter as an attribute.  In the two
generators guarding only with `if parameters is None` (`MCND.py`,
`Structure_based_assignment.py`), `parameters={}` instead sets no parameter
attribute. -/
theorem init_empty_vs_none (d : List (String × PVal)) :
    initParamsStrict none d = d ∧ initParamsStrict (some []) d = d ∧
    initParamsNoneOnly none d = d ∧ initParamsNoneOnly (some []) d = [] :=
  ⟨rfl, rfl, rfl, rfl⟩

/-- The global state of Python's `random` module: an infinite stream of raw
pseudo-random naturals together with a cursor.  CPython's Mersenne Twister is
a deterministic function of the seed; everything proved below uses only that
determinism and the reduction of a raw draw into a range. -/
structure RandState where
  stream : Nat → Nat
  pos : Nat

/-- `random.randint(lo, hi)`: consumes one raw draw and reduces it into
`[lo, hi]` (the bound holds whenever `lo ≤ hi`, which Python also requires). -/
def randint (lo hi : Int) (r : RandState) : Int × RandState :=
  (lo + (r.stream r.pos : Int) % (hi - lo + 1), ⟨r.stream, r.pos + 1⟩)

/-- `random.seed(s)`: reinitializes the global generator state as a
deterministic function of the seed (the concrete mixing stands in for the
Mersenne-Twister seeding; no theorem depends on its values, only on its
determinism). -/
def seededState (seed : Int) : RandState :=
  ⟨fun n => (seed.natAbs + n + 1) * 2654435761 % 4294967296, 0⟩

/-- A list of `n` consecutive `randint lo hi` draws (one dict/list
comprehension of the Python sources). -/
def randList (lo hi : Int) : Nat → RandState → List Int × RandState
  | 0, r => ([], r)
  | n + 1, r =>
    let v := randint lo hi r
    let vs := randList lo hi n v.2
    (v.1 :: vs.1, vs.2)

/-- One `randint lo hi` draw per key, in key order (models dict comprehensions
such as `{(i, j): random.randint(*rng) for i in A for j in B}`). -/
def randAssoc {κ : Type} (lo hi : Int) : List κ → RandState → List (κ × Int) × RandState
  | [], r => ([], r)
  | k :: ks, r =>
    let v := randint lo hi r
    let vs := randAssoc lo hi ks v.2
    ((k, v.1) :: vs.1, vs.2)

/-- Python's `int()` applied to a float/rational: truncation toward zero. -/
def pyInt (q : Rat) : Int :=
  if q < 0 then ⌈q⌉ else ⌊q⌋

/-- A count attribute such as `self.n_items` / `self.n_cities`: initially the
`(min, max)` tuple from the parameters, overwritten by the sampled integer the
first time `generate_instance` draws it. -/
inductive CountParam where
  | range (lo hi : Int)
  | value (n : Int)
deriving DecidableEq, Repr

/-- Variable types of the Gurobi models built by the generators. -/
inductive VType where
  | continuous
  | integer
  | binary
deriving DecidableEq, Repr

/-- Comparison operator of a linear constraint. -/
inductive CRel where
  | le
  | ge
  | eq
deriving DecidableEq, Repr

/-- Objective sense. -/
inductive Sense where
  | minimize
  | maximize
deriving DecidableEq, Repr

/-- One linear constraint `Σ coeff·var ⟨rel⟩ rhs`, with the optional name the
source passes to `addConstr` (`κ` is the constraint-name type). -/
structure LinConstr (ν κ : Type) where
  cname : Option κ
  terms : List (Rat × ν)
  rel : CRel
  rhs : Rat
deriving DecidableEq, Repr

/-- A Gurobi model as assembled by a generator: declared variables with their
types (in `addVars` order), objective sense and linear objective, and the
linear constraints in `addConstr` order. -/
structure LPModel (ν κ : Type) where
  vars : List (ν × VType)
  sense : Sense
  objective : List (Rat × ν)
  constrs : List (LinConstr ν κ)
deriving DecidableEq, Repr

/-- State of a `KnapSack/Knapsack.py` `Generator` object: the four parameter
attributes (the defaults or a full user override) and the stored seed. -/
structure KnapsackGen where
  n_items : CountParam
  value_range : Int × Int
  weight_range : Int × Int
  capacity_ratio : Rat
  seed : Option Int
deriving DecidableEq, Repr

/-- A full set of Knapsack parameters as passed to the constructor. -/
structure KnapsackParams where
  n_items : Int × Int
  value_range : Int × Int
  weight_range : Int × Int
  capacity_ratio : Rat
deriving DecidableEq, Repr

/-- `Generator.__init__` of `KnapSack/Knapsack.py` as a function of the
incoming global random state: stores the parameters as attributes and, when a
seed is given, replaces the global random state by the seeded one (`if
self.seed is not None: random.seed(seed)`). -/
def knapsackInit (p : KnapsackParams) (seed : Option Int) (r : RandState) :
    KnapsackGen × RandState :=
  (⟨CountParam.range p.n_items.1 p.n_items.2, p.value_range, p.weight_range,
    p.capacity_ratio, seed⟩,
   match seed with
   | some s => seededState s
   | none => r)

/-- The concrete data of one sampled Knapsack instance. -/
structure KnapsackInstance where
  n : Nat
  values : List Int
  weights : List Int
  capacity : Int
deriving DecidableEq, Repr

/-- The Gurobi model `generate_instance` builds from sampled Knapsack data:
one binary variable per item, maximize `Σ value_j · x_j`, and the single
constraint `Σ weight_j · x_j ≤ capacity` named `"WeightCapacity"`. -/
def knapsackModel (inst : KnapsackInstance) : LPModel Nat String :=
  ⟨(List.range inst.n).map (fun j => (j, VType.binary)),
   Sense.maximize,
   (List.range inst.n).map (fun j => ((inst.values.getD j 0 : Rat), j)),
   [⟨some "WeightCapacity",
     (List.range inst.n).map (fun j => ((inst.weights.getD j 0 : Rat), j)),
     CRel.le, (inst.capacity : Rat)⟩]⟩

/-- `Generator.generate_instance` of `KnapSack/Knapsack.py`.  The first line
`self.n_items = random.randint(*self.n_items)` unpacks the stored attribute:
if it still holds the `(min, max)` tuple the draw succeeds and the attribute
is overwritten with the sampled integer; if a previous call already replaced
it by an integer, the `*` unpacking raises `TypeError`.  Then the item values
and weights are drawn and the capacity is `int(total_weight *
capacity_ratio)`. -/
def knapsackGenerate (g : KnapsackGen) (r : RandState) :
    Except String ((KnapsackGen × KnapsackInstance × LPModel Nat String) × RandState) :=
  match g.n_items with
  | CountParam.value _ =>
    Except.error "TypeError: randint() argument after * must be an iterable, not int"
  | CountParam.range lo hi =>
    let d := randint lo hi r
    let n := d.1.toNat
    let values := randList g.value_range.1 g.value_range.2 n d.2
    let weights := randList g.weight_range.1 g.weight_range.2 n values.2
    let totalWeight : Int := weights.1.foldl (· + ·) 0
    let capacity := pyInt ((totalWeight : Rat) * g.capacity_ratio)
    let inst : KnapsackInstance := ⟨n, values.1, weights.1, capacity⟩
    Except.ok ((⟨CountParam.value d.1, g.value_range, g.weight_range,
                 g.capacity_ratio, g.seed⟩, inst, knapsackModel inst), weights.2)

/-- A variable of the TSP model: `x i j` is the binary routing variable
`route[city_i,city_j]`, `u i` the integer MTZ variable `u[city_i]`. -/
inductive TSPVar where
  | x (i j : Nat)
  | u (i : Nat)
deriving DecidableEq, Repr

/-- The names `TSP/TSP.py` passes to `addConstr` (`f"visit_{j}"`,
`f"depart_{i}"`; the bound and MTZ constraints are unnamed). -/
inductive TSPCName where
  | visit (j : Nat)
  | depart (i : Nat)
deriving DecidableEq, Repr

/-- The key order of `self.distances`: the dict comprehension `{(i, j): ...
for i in cities for j in cities if i != j}`. -/
def cityPairs (n : Nat) : List (Nat × Nat) :=
  (List.range n).flatMap
    (fun i => ((List.range n).filter (fun j => decide (j ≠ i))).map (fun j => (i, j)))

/-- The visit constraint of city `j`: `Σ_{i ≠ j} x i j = 1`, named
`visit_{j}`. -/
def tspVisit (n j : Nat) : LinConstr TSPVar TSPCName :=
  ⟨some (TSPCName.visit j),
   ((List.range n).filter (fun i => decide (i ≠ j))).map
     (fun i => ((1 : Rat), TSPVar.x i j)),
   CRel.eq, 1⟩

/-- The departure constraint of city `i`: `Σ_{j ≠ i} x i j = 1`, named
`depart_{i}`. -/
def tspDepart (n i : Nat) : LinConstr TSPVar TSPCName :=
  ⟨some (TSPCName.depart i),
   ((List.range n).filter (fun j => decide (j ≠ i))).map
     (fun j => ((1 : Rat), TSPVar.x i j)),
   CRel.eq, 1⟩

/-- The unnamed lower bound `u i ≥ 0` added for every non-first city. -/
def tspULower (i : Nat) : LinConstr TSPVar TSPCName :=
  ⟨none, [((1 : Rat), TSPVar.u i)], CRel.ge, 0⟩

/-- The unnamed upper bound `u i ≤ n - 1` added for every non-first city. -/
def tspUUpper (n i : Nat) : LinConstr TSPVar TSPCName :=
  ⟨none, [((1 : Rat), TSPVar.u i)], CRel.le, (n : Rat) - 1⟩

/-- The unnamed MTZ subtour-elimination constraint
`u i - u j + n·(x i j) ≤ n - 1`. -/
def tspMtz (n i j : Nat) : LinConstr TSPVar TSPCName :=
  ⟨none,
   [((1 : Rat), TSPVar.u i), ((-1 : Rat), TSPVar.u j), ((n : Rat), TSPVar.x i j)],
   CRel.le, (n : Rat) - 1⟩

/-- The constraint list of `TSP/TSP.py`'s `generate_instance`, in `addConstr`
order: visit constraints, departure constraints, the `u` bounds for every
city other than `cities[0]`, and the MTZ constraints for every ordered pair
of distinct cities that avoids `cities[0]`. -/
def tspConstrs (n : Nat) : List (LinConstr TSPVar TSPCName) :=
  (List.range n).map (tspVisit n)
    ++ (List.range n).map (tspDepart n)
    ++ (List.range n).flatMap (fun i => if i ≠ 0 then [tspULower i, tspUUpper n i] else [])
    ++ (cityPairs n).flatMap
        (fun p => if p.1 ≠ 0 ∧ p.2 ≠ 0 then [tspMtz n p.1 p.2] else [])

/-- The instance data `generate_instance` stores on the TSP generator object:
`self.cities` (represented by its length) and `self.distances`. -/
structure TSPInstance where
  n : Nat
  distances : List ((Nat × Nat) × Int)
deriving DecidableEq, Repr

/-- The Gurobi model of `TSP/TSP.py`: a binary `x` variable per distance key,
an integer `u` variable per city, objective minimize `Σ d_ij · x_ij`, and
`tspConstrs`. -/
def tspModel (n : Nat) (dists : List ((Nat × Nat) × Int)) :
    LPModel TSPVar TSPCName :=
  ⟨(dists.map (fun d => (TSPVar.x d.1.1 d.1.2, VType.binary)))
     ++ (List.range n).map (fun i => (TSPVar.u i, VType.integer)),
   Sense.minimize,
   dists.map (fun d => ((d.2 : Rat), TSPVar.x d.1.1 d.1.2)),
   tspConstrs n⟩

/-- State of a `TSP/TSP.py` `Generator` object. -/
structure TSPGen where
  n_cities : CountParam
  distance_range : Int × Int
  seed : Option Int
deriving DecidableEq, Repr

/-- `Generator.generate_instance` of `TSP/TSP.py`.  Unlike Knapsack, the city
count is guarded: `if isinstance(self.n_cities, tuple): self.n_cities =
random.randint(*self.n_cities)`, so a second call silently reuses the
previously drawn count and never raises. -/
def tspGenerate (g : TSPGen) (r : RandState) :
    (TSPGen × TSPInstance × LPModel TSPVar TSPCName) × RandState :=
  let d :=
    match g.n_cities with
    | CountParam.range lo hi => randint lo hi r
    | CountParam.value k => (k, r)
  let n := d.1.toNat
  let dists := randAssoc g.distance_range.1 g.distance_range.2 (cityPairs n) d.2
  ((⟨CountParam.value d.1, g.distance_range, g.seed⟩, ⟨n, dists.1⟩,
    tspModel n dists.1), dists.2)

/-- State of a `CFLP/CFLP_parsed.py` `Generator` object (the range
attributes its sampling step reads). -/
structure CFLPGen where
  n_facilities : CountParam
  n_customers : CountParam
  fixed_cost_range : Int × Int
  transport_cost_range : Int × Int
  demand_range : Int × Int
  capacity_range : Int × Int
deriving DecidableEq, Repr

/-- The sampled data of one CFLP instance (transport costs flattened in the
dict-comprehension order `for i in customers for j in facilities`). -/
structure CFLPSample where
  nFac : Int
  nCust : Int
  fixedCosts : List Int
  transportCosts : List Int
  demands : List Int
  capacities : List Int
deriving DecidableEq, Repr

/-- The parameter-sampling prefix of `Generator.generate_instance` in
`CFLP/CFLP_parsed.py` (lines 66-79): draws the facility and customer counts,
then the fixed costs, transport costs, demands and capacities, each with
`random.randint` over the configured range. -/
def cflpSample (g : CFLPGen) (r : RandState) :
    Except String (CFLPSample × RandState) :=
  match g.n_facilities, g.n_customers with
  | CountParam.range flo fhi, CountParam.range clo chi =>
    let dF := randint flo fhi r
    let dC := randint clo chi dF.2
    let nF := dF.1.toNat
    let nC := dC.1.toNat
    let fixedCosts := randList g.fixed_cost_range.1 g.fixed_cost_range.2 nF dC.2
    let transportCosts :=
      randList g.transport_cost_range.1 g.transport_cost_range.2 (nC * nF) fixedCosts.2
    let demands := randList g.demand_range.1 g.demand_range.2 nC transportCosts.2
    let capacities := randList g.capacity_range.1 g.capacity_range.2 nF demands.2
    Except.ok (⟨dF.1, dC.1, fixedCosts.1, transportCosts.1, demands.1, capacities.1⟩,
               capacities.2)
  | _, _ =>
    Except.error "TypeError: randint() argument after * must be an iterable, not int"

theorem randint_bounds (lo hi : Int) (r : RandState) (h : lo ≤ hi) :
    lo ≤ (randint lo hi r).1 ∧ (randint lo hi r).1 ≤ hi := by
  have h1 : 0 ≤ (r.stream r.pos : Int) % (hi - lo + 1) :=
    Int.emod_nonneg _ (by omega)
  have h2 : (r.stream r.pos : Int) % (hi - lo + 1) < hi - lo + 1 :=
    Int.emod_lt_of_pos _ (by omega)
  constructor <;> simp only [randint] <;> omega

theorem randList_length (lo hi : Int) (n : Nat) (r : RandState) :
    ((randList lo hi n r).1).length = n := by
  induction n generalizing r with
  | zero => rfl
  | succ n ih => simp [randList, ih]

theorem randList_bounds (lo hi : Int) (h : lo ≤ hi) (n : Nat) (r : RandState) :
    ∀ v ∈ (randList lo hi n r).1, lo ≤ v ∧ v ≤ hi := by
  induction n generalizing r with
  | zero => intro v hv; simp [randList] at hv
  | succ n ih =>
    intro v hv
    simp only [randList, List.mem_cons] at hv
    rcases hv with hv | hv
    · exact hv ▸ randint_bounds lo hi r h
    · exact ih _ v hv

theorem randAssoc_bounds {κ : Type} (lo hi : Int) (h : lo ≤ hi) (ks : List κ)
    (r : RandState) : ∀ p ∈ (randAssoc lo hi ks r).1, lo ≤ p.2 ∧ p.2 ≤ hi := by
  induction ks generalizing r with
  | nil => intro p hp; simp [randAssoc] at hp
  | cons k ks ih =>
    intro p hp
    simp only [randAssoc, List.mem_cons] at hp
    rcases hp with hp | hp
    · exact hp ▸ randint_bounds lo hi r h
    · exact ih _ p hp

theorem pyInt_eq_floor (q : Rat) (h : 0 ≤ q) : pyInt q = ⌊q⌋ := by
  unfold pyInt
  rw [if_neg (not_lt.mpr h)]

theorem foldl_add_eq_sum (l : List Int) : l.foldl (· + ·) 0 = l.sum := by
  simp [List.sum_eq_foldl]

/-- C3: constructing a Knapsack `Generator` with the same parameters and the
same non-`None` seed twice — with arbitrary, possibly different global random
states beforehand — and calling `generate_instance` once on each yields
identical results: the same sampled item count, values, weights, capacity,
model, and posterior random state.  The seeding in `__init__` makes the
generated instance a deterministic function of `(parameters, seed)`. -/
theorem knapsack_deterministic_C3 (p : KnapsackParams) (s : Int) (r1 r2 : RandState) :
    knapsackGenerate (knapsackInit p (some s) r1).1 (knapsackInit p (some s) r1).2
      = knapsackGenerate (knapsackInit p (some s) r2).1 (knapsackInit p (some s) r2).2 :=
  rfl

/-- C4: for every Knapsack generator whose `n_items` attribute still holds a
range tuple, `generate_instance` succeeds and returns the textbook 0-1
knapsack model over the sampled instance: `inst.n` binary variables, a
MAXIMIZE objective `Σ value_j · x_j`, and exactly one linear constraint
`Σ weight_j · x_j ≤ K` with `K = ⌊capacity_ratio · Σ weights⌋` (the source's
`int(total_weight * capacity_ratio)`, which is the floor on the documented
parameter domain `capacity_ratio ≥ 0`, weights ≥ 0). -/
theorem knapsack_model_C4 (g : KnapsackGen) (r : RandState) (lo hi : Int)
    (hni : g.n_items = CountParam.range lo hi)
    (hw0 : 0 ≤ g.weight_range.1) (hw : g.weight_range.1 ≤ g.weight_range.2)
    (hr : 0 ≤ g.capacity_ratio) :
    ∃ g' inst r',
      knapsackGenerate g r = Except.ok ((g', inst, knapsackModel inst), r') ∧
      inst.values.length = inst.n ∧ inst.weights.length = inst.n ∧
      (knapsackModel inst).vars = (List.range inst.n).map (fun j => (j, VType.binary)) ∧
      (knapsackModel inst).sense = Sense.maximize ∧
      (knapsackModel inst).objective
        = (List.range inst.n).map (fun j => ((inst.values.getD j 0 : Rat), j)) ∧
      (knapsackModel inst).constrs
        = [⟨some "WeightCapacity",
            (List.range inst.n).map (fun j => ((inst.weights.getD j 0 : Rat), j)),
            CRel.le, (inst.capacity : Rat)⟩] ∧
      inst.capacity = ⌊g.capacity_ratio * (inst.weights.sum : Rat)⌋ := by
  obtain ⟨ni, vr, wr, cr, sd⟩ := g
  simp only at hni hw0 hw hr
  subst hni
  refine ⟨_, _, _, rfl, ?_, ?_, rfl, rfl, rfl, rfl, ?_⟩
  · exact randList_length _ _ _ _
  · exact randList_length _ _ _ _
  · have hws : ∀ w ∈ (randList wr.1 wr.2
        ((randint lo hi r).1).toNat
        (randList vr.1 vr.2 ((randint lo hi r).1).toNat (randint lo hi r).2).2).1,
        (0 : Int) ≤ w := by
      intro w hw'
      exact le_trans hw0 (randList_bounds wr.1 wr.2 hw _ _ w hw').1
    have hsum : (0 : Int) ≤ ((randList wr.1 wr.2
        ((randint lo hi r).1).toNat
        (randList vr.1 vr.2 ((randint lo hi r).1).toNat (randint lo hi r).2).2).1).sum :=
      List.sum_nonneg hws
    simp only [knapsackGenerate, foldl_add_eq_sum]
    rw [mul_comm]
    refine pyInt_eq_floor _ ?_
    have h0 : (0 : Rat) ≤ (((randList wr.1 wr.2
        ((randint lo hi r).1).toNat
        (randList vr.1 vr.2 ((randint lo hi r).1).toNat (randint lo hi r).2).2).1).sum : Rat) := by
      exact_mod_cast hsum
    exact mul_nonneg hr h0

/-- C4 (witness): the theorem applied to the default Knapsack parameters and a
concrete random stream. -/
theorem knapsack_model_C4_witness :
    ∃ g' inst r',
      knapsackGenerate ⟨CountParam.range 3 30, (10, 300), (1, 50), 7/10, none⟩
          ⟨fun k => k, 0⟩
        = Except.ok ((g', inst, knapsackModel inst), r') ∧
      inst.values.length = inst.n ∧ inst.weights.length = inst.n ∧
      (knapsackModel inst).vars = (List.range inst.n).map (fun j => (j, VType.binary)) ∧
      (knapsackModel inst).sense = Sense.maximize ∧
      (knapsackModel inst).objective
        = (List.range inst.n).map (fun j => ((inst.values.getD j 0 : Rat), j)) ∧
      (knapsackModel inst).constrs
        = [⟨some "WeightCapacity",
            (List.range inst.n).map (fun j => ((inst.weights.getD j 0 : Rat), j)),
            CRel.le, (inst.capacity : Rat)⟩] ∧
      inst.capacity = ⌊(7/10 : Rat) * (inst.weights.sum : Rat)⌋ :=
  knapsack_model_C4 ⟨CountParam.range 3 30, (10, 300), (1, 50), 7/10, none⟩
    ⟨fun k => k, 0⟩ 3 30 rfl (by decide) (by decide) (by norm_num)

/-- C6: every concrete value `generate_instance` samples from a configured
`(lo, hi)` range with `lo ≤ hi` lies in `[lo, hi]`: for Knapsack the drawn
item count, every item value and every item weight; for CFLP the drawn
facility and customer counts, every fixed cost, transport cost, demand and
capacity. -/
theorem sampled_values_in_ranges_C6 :
    (∀ (g : KnapsackGen) (r : RandState) (lo hi : Int),
       g.n_items = CountParam.range lo hi → lo ≤ hi →
       g.value_range.1 ≤ g.value_range.2 → g.weight_range.1 ≤ g.weight_range.2 →
       ∃ g' inst m r',
         knapsackGenerate g r = Except.ok ((g', inst, m), r') ∧
         g'.n_items = CountParam.value ((randint lo hi r).1) ∧
         lo ≤ (randint lo hi r).1 ∧ (randint lo hi r).1 ≤ hi ∧
         inst.n = ((randint lo hi r).1).toNat ∧
         (∀ v ∈ inst.values, g.value_range.1 ≤ v ∧ v ≤ g.value_range.2) ∧
         (∀ w ∈ inst.weights, g.weight_range.1 ≤ w ∧ w ≤ g.weight_range.2))
    ∧ (∀ (g : CFLPGen) (r : RandState) (flo fhi clo chi : Int),
       g.n_facilities = CountParam.range flo fhi →
       g.n_customers = CountParam.range clo chi →
       flo ≤ fhi → clo ≤ chi →
       g.fixed_cost_range.1 ≤ g.fixed_cost_range.2 →
       g.transport_cost_range.1 ≤ g.transport_cost_range.2 →
       g.demand_range.1 ≤ g.demand_range.2 →
       g.capacity_range.1 ≤ g.capacity_range.2 →
       ∃ s r',
         cflpSample g r = Except.ok (s, r') ∧
         flo ≤ s.nFac ∧ s.nFac ≤ fhi ∧ clo ≤ s.nCust ∧ s.nCust ≤ chi ∧
         (∀ v ∈ s.fixedCosts,
            g.fixed_cost_range.1 ≤ v ∧ v ≤ g.fixed_cost_range.2) ∧
         (∀ v ∈ s.transportCosts,
            g.transport_cost_range.1 ≤ v ∧ v ≤ g.transport_cost_range.2) ∧
         (∀ v ∈ s.demands, g.demand_range.1 ≤ v ∧ v ≤ g.demand_range.2) ∧
         (∀ v ∈ s.capacities, g.capacity_range.1 ≤ v ∧ v ≤ g.capacity_range.2)) := by
  constructor
  · intro g r lo hi hni hlh hv hw
    obtain ⟨ni, vr, wr, cr, sd⟩ := g
    simp only at hni hv hw
    subst hni
    exact ⟨_, _, _, _, rfl, rfl, (randint_bounds lo hi r hlh).1,
      (randint_bounds lo hi r hlh).2, rfl,
      randList_bounds vr.1 vr.2 hv _ _, randList_bounds wr.1 wr.2 hw _ _⟩
  · intro g r flo fhi clo chi hnf hnc hf hc hfc htc hd hcap
    obtain ⟨nf, nc, fr, tr, dr, kr⟩ := g
    simp only at hnf hnc hfc htc hd hcap
    subst hnf
    subst hnc
    refine ⟨_, _, rfl, (randint_bounds flo fhi r hf).1,
      (randint_bounds flo fhi r hf).2, (randint_bounds clo chi _ hc).1,
      (randint_bounds clo chi _ hc).2, randList_bounds fr.1 fr.2 hfc _ _,
      randList_bounds tr.1 tr.2 htc _ _, randList_bounds dr.1 dr.2 hd _ _,
      randList_bounds kr.1 kr.2 hcap _ _⟩

/-- C6 (witness): both halves applied to the generators' default ranges and a
concrete random stream. -/
theorem sampled_values_in_ranges_C6_witness :
    (∃ g' inst m r',
       knapsackGenerate ⟨CountParam.range 3 30, (10, 300), (1, 50), 7/10, none⟩
           ⟨fun k => k, 0⟩
         = Except.ok ((g', inst, m), r') ∧
       g'.n_items = CountParam.value ((randint 3 30 ⟨fun k => k, 0⟩).1) ∧
       (3 : Int) ≤ (randint 3 30 ⟨fun k => k, 0⟩).1 ∧
       (randint 3 30 ⟨fun k => k, 0⟩).1 ≤ 30 ∧
       inst.n = ((randint 3 30 ⟨fun k => k, 0⟩).1).toNat ∧
       (∀ v ∈ inst.values, (10 : Int) ≤ v ∧ v ≤ 300) ∧
       (∀ w ∈ inst.weights, (1 : Int) ≤ w ∧ w ≤ 50))
    ∧ (∃ s r',
       cflpSample ⟨CountParam.range 3 3, CountParam.range 3 3, (80000, 120000),
           (10, 100), (300, 500), (800, 1200)⟩ ⟨fun k => k, 0⟩
         = Except.ok (s, r') ∧
       (3 : Int) ≤ s.nFac ∧ s.nFac ≤ 3 ∧ (3 : Int) ≤ s.nCust ∧ s.nCust ≤ 3 ∧
       (∀ v ∈ s.fixedCosts, (80000 : Int) ≤ v ∧ v ≤ 120000) ∧
       (∀ v ∈ s.transportCosts, (10 : Int) ≤ v ∧ v ≤ 100) ∧
       (∀ v ∈ s.demands, (300 : Int) ≤ v ∧ v ≤ 500) ∧
       (∀ v ∈ s.capacities, (800 : Int) ≤ v ∧ v ≤ 1200)) :=
  ⟨sampled_values_in_ranges_C6.1 ⟨CountParam.range 3 30, (10, 300), (1, 50), 7/10, none⟩
     ⟨fun k => k, 0⟩ 3 30 rfl (by decide) (by decide) (by decide),
   sampled_values_in_ranges_C6.2 ⟨CountParam.range 3 3, CountParam.range 3 3,
     (80000, 120000), (10, 100), (300, 500), (800, 1200)⟩ ⟨fun k => k, 0⟩
     3 3 3 3 rfl rfl (by decide) (by decide) (by decide) (by decide) (by decide)
     (by decide)⟩

/-- C9: once a Knapsack `generate_instance` call has returned, the `n_items`
attribute holds the sampled integer instead of the `(min, max)` tuple, so a
second call's `random.randint(*self.n_items)` raises `TypeError`; TSP's
`generate_instance` guards the overwrite with an `isinstance` check, so a
second call succeeds and silently reuses the previously drawn city count. -/
theorem second_generate_call_C9 :
    (∀ (g g' : KnapsackGen) (inst : KnapsackInstance) (m : LPModel Nat String)
       (r r'' : RandState),
       knapsackGenerate g r = Except.ok ((g', inst, m), r'') →
       ∀ r2, knapsackGenerate g' r2
         = Except.error "TypeError: randint() argument after * must be an iterable, not int")
    ∧ (∀ (t : TSPGen) (r : RandState),
       ((tspGenerate ((tspGenerate t r).1.1) ((tspGenerate t r).2)).1.2.1).n
         = ((tspGenerate t r).1.2.1).n
       ∧ ((tspGenerate ((tspGenerate t r).1.1) ((tspGenerate t r).2)).1.1).n_cities
         = ((tspGenerate t r).1.1).n_cities) := by
  constructor
  · intro g g' inst m r r'' h r2
    obtain ⟨ni, vr, wr, cr, sd⟩ := g
    cases ni with
    | value k => simp [knapsackGenerate] at h
    | range lo hi =>
      simp only [knapsackGenerate, Except.ok.injEq, Prod.mk.injEq] at h
      obtain ⟨⟨hg', -, -⟩, -⟩ := h
      subst hg'
      rfl
  · intro t r
    obtain ⟨nc, dr, sd⟩ := t
    cases nc <;> exact ⟨rfl, rfl⟩

/-- C9 (witness): a first Knapsack call on the degenerate ranges (1,1) draws
item count 1 and overwrites `n_items`; the theorem then yields the `TypeError`
on the second call, and the TSP half is applied to a concrete generator. -/
theorem second_generate_call_C9_witness :
    knapsackGenerate ⟨CountParam.value 1, (2, 2), (3, 3), 0, none⟩ ⟨fun _ => 0, 4⟩
      = Except.error "TypeError: randint() argument after * must be an iterable, not int"
    ∧ ((tspGenerate ((tspGenerate ⟨CountParam.range 2 2, (1, 1), none⟩
          ⟨fun _ => 0, 0⟩).1.1) ((tspGenerate ⟨CountParam.range 2 2, (1, 1), none⟩
          ⟨fun _ => 0, 0⟩).2)).1.2.1).n
        = ((tspGenerate ⟨CountParam.range 2 2, (1, 1), none⟩ ⟨fun _ => 0, 0⟩).1.2.1).n :=
  ⟨second_generate_call_C9.1 ⟨CountParam.range 1 1, (2, 2), (3, 3), 0, none⟩ _ _ _
     ⟨fun _ => 0, 0⟩ _ rfl _,
   (second_generate_call_C9.2 ⟨CountParam.range 2 2, (1, 1), none⟩ ⟨fun _ => 0, 0⟩).1⟩

theorem count_map_range_eq_one {α : Type} [DecidableEq α] (f : Nat → α)
    (hf : Function.Injective f) (n j : Nat) (hj : j < n) :
    ((List.range n).map f).count (f j) = 1 :=
  List.count_eq_one_of_mem (List.Nodup.map hf (List.nodup_range n))
    (List.mem_map_of_mem f (List.mem_range.mpr hj))

theorem tspVisit_inj (n : Nat) : Function.Injective (tspVisit n) := by
  intro a b hab
  have h := congrArg LinConstr.cname hab
  simpa [tspVisit] using h

theorem tspDepart_inj (n : Nat) : Function.Injective (tspDepart n) := by
  intro a b hab
  have h := congrArg LinConstr.cname hab
  simpa [tspDepart] using h

theorem notmem_tsp_bounds (n : Nat) (c : LinConstr TSPVar TSPCName)
    (hc : c.cname.isSome) :
    c ∉ (List.range n).flatMap
      (fun i => if i ≠ 0 then [tspULower i, tspUUpper n i] else []) := by
  intro hmem
  obtain ⟨i, -, hci⟩ := List.mem_flatMap.mp hmem
  by_cases hi : i ≠ 0
  · rw [if_pos hi] at hci
    simp only [List.mem_cons, List.not_mem_nil, or_false] at hci
    rcases hci with hci | hci
    · rw [hci] at hc; simp [tspULower] at hc
    · rw [hci] at hc; simp [tspUUpper] at hc
  · rw [if_neg hi] at hci
    simp at hci

theorem notmem_tsp_mtz (n : Nat) (c : LinConstr TSPVar TSPCName)
    (hc : c.cname.isSome) :
    c ∉ (cityPairs n).flatMap
      (fun p => if p.1 ≠ 0 ∧ p.2 ≠ 0 then [tspMtz n p.1 p.2] else []) := by
  intro hmem
  obtain ⟨p, -, hcp⟩ := List.mem_flatMap.mp hmem
  by_cases hp : p.1 ≠ 0 ∧ p.2 ≠ 0
  · rw [if_pos hp] at hcp
    simp only [List.mem_cons, List.not_mem_nil, or_false] at hcp
    rw [hcp] at hc; simp [tspMtz] at hc
  · rw [if_neg hp] at hcp
    simp at hcp

theorem tspVisit_ne_depart (n j i : Nat) : tspDepart n i ≠ tspVisit n j := by
  intro h
  have := congrArg LinConstr.cname h
  simp [tspVisit, tspDepart] at this

theorem tspConstrs_spec (n : Nat) :
    (∀ j < n, (tspConstrs n).count (tspVisit n j) = 1 ∧
       (tspConstrs n).count (tspDepart n j) = 1) ∧
    (∀ i < n, i ≠ 0 → tspULower i ∈ tspConstrs n ∧ tspUUpper n i ∈ tspConstrs n) ∧
    (∀ i j, i < n → j < n → i ≠ j → i ≠ 0 → j ≠ 0 → tspMtz n i j ∈ tspConstrs n) := by
  refine ⟨?_, ?_, ?_⟩
  · intro j hj
    constructor
    · have h1 : ((List.range n).map (tspVisit n)).count (tspVisit n j) = 1 :=
        count_map_range_eq_one _ (tspVisit_inj n) n j hj
      have h2 : ((List.range n).map (tspDepart n)).count (tspVisit n j) = 0 := by
        refine List.count_eq_zero.mpr ?_
        intro hmem
        obtain ⟨i, -, heq⟩ := List.mem_map.mp hmem
        exact tspVisit_ne_depart n j i heq
      have h3 := List.count_eq_zero.mpr
        (notmem_tsp_bounds n (tspVisit n j) (by simp [tspVisit]))
      have h4 := List.count_eq_zero.mpr
        (notmem_tsp_mtz n (tspVisit n j) (by simp [tspVisit]))
      rw [tspConstrs, List.count_append, List.count_append, List.count_append,
        h1, h2, h3, h4]
    · have h1 : ((List.range n).map (tspDepart n)).count (tspDepart n j) = 1 :=
        count_map_range_eq_one _ (tspDepart_inj n) n j hj
      have h2 : ((List.range n).map (tspVisit n)).count (tspDepart n j) = 0 := by
        refine List.count_eq_zero.mpr ?_
        intro hmem
        obtain ⟨i, -, heq⟩ := List.mem_map.mp hmem
        have := congrArg LinConstr.cname heq
        simp [tspVisit, tspDepart] at this
      have h3 := List.count_eq_zero.mpr
        (notmem_tsp_bounds n (tspDepart n j) (by simp [tspDepart]))
      have h4 := List.count_eq_zero.mpr
        (notmem_tsp_mtz n (tspDepart n j) (by simp [tspDepart]))
      rw [tspConstrs, List.count_append, List.count_append, List.count_append,
        h2, h1, h3, h4]
  · intro i hi hi0
    have hmem : tspULower i ∈ (List.range n).flatMap
        (fun i => if i ≠ 0 then [tspULower i, tspUUpper n i] else []) := by
      refine List.mem_flatMap.mpr ⟨i, List.mem_range.mpr hi, ?_⟩
      rw [if_pos hi0]
      simp
    have hmem' : tspUUpper n i ∈ (List.range n).flatMap
        (fun i => if i ≠ 0 then [tspULower i, tspUUpper n i] else []) := by
      refine List.mem_flatMap.mpr ⟨i, List.mem_range.mpr hi, ?_⟩
      rw [if_pos hi0]
      simp
    rw [tspConstrs]
    constructor
    · exact List.mem_append.mpr (Or.inl (List.mem_append.mpr (Or.inr hmem)))
    · exact List.mem_append.mpr (Or.inl (List.mem_append.mpr (Or.inr hmem')))
  · intro i j hi hj hij hi0 hj0
    have hpair : (i, j) ∈ cityPairs n := by
      refine List.mem_flatMap.mpr ⟨i, List.mem_range.mpr hi, ?_⟩
      refine List.mem_map.mpr ⟨j, ?_, rfl⟩
      refine List.mem_filter.mpr ⟨List.mem_range.mpr hj, ?_⟩
      simpa using fun h => hij h.symm
    have hmem : tspMtz n i j ∈ (cityPairs n).flatMap
        (fun p => if p.1 ≠ 0 ∧ p.2 ≠ 0 then [tspMtz n p.1 p.2] else []) := by
      refine List.mem_flatMap.mpr ⟨(i, j), hpair, ?_⟩
      rw [if_pos ⟨hi0, hj0⟩]
      simp
    rw [tspConstrs]
    exact List.mem_append.mpr (Or.inr hmem)

/-- C5: for every TSP generator run with at least 2 sampled cities, the model
built by `generate_instance` has, for every city, exactly one visit
constraint (`Σ_{i≠j} x_ij = 1`, named `visit_j`) and exactly one departure
constraint (`Σ_{j≠i} x_ij = 1`, named `depart_i`); for every ordered pair of
distinct cities `(i, j)` neither of which is the first city it contains the
MTZ constraint `u_i - u_j + n·x_ij ≤ n - 1`; and for every city other than
the first it contains the bounds `u_i ≥ 0` and `u_i ≤ n - 1`. -/
theorem tsp_structure_C5 (g : TSPGen) (r : RandState)
    (h2 : 2 ≤ ((tspGenerate g r).1.2.1).n) :
    (∀ j < ((tspGenerate g r).1.2.1).n,
       ((tspGenerate g r).1.2.2).constrs.count
         (tspVisit ((tspGenerate g r).1.2.1).n j) = 1 ∧
       ((tspGenerate g r).1.2.2).constrs.count
         (tspDepart ((tspGenerate g r).1.2.1).n j) = 1) ∧
    (∀ i < ((tspGenerate g r).1.2.1).n, i ≠ 0 →
       tspULower i ∈ ((tspGenerate g r).1.2.2).constrs ∧
       tspUUpper ((tspGenerate g r).1.2.1).n i ∈ ((tspGenerate g r).1.2.2).constrs) ∧
    (∀ i j, i < ((tspGenerate g r).1.2.1).n → j < ((tspGenerate g r).1.2.1).n →
       i ≠ j → i ≠ 0 → j ≠ 0 →
       tspMtz ((tspGenerate g r).1.2.1).n i j ∈ ((tspGenerate g r).1.2.2).constrs) := by
  obtain ⟨nc, dr, sd⟩ := g
  cases nc with
  | range lo hi => exact tspConstrs_spec _
  | value k => exact tspConstrs_spec _

/-- C5 (witness): the theorem applied to a generator with 3 cities, projected
to the visit-count of city 1 and the MTZ constraint of the pair (1, 2). -/
theorem tsp_structure_C5_witness :
    ((tspGenerate ⟨CountParam.value 3, (1, 1), none⟩ ⟨fun _ => 0, 0⟩).1.2.2).constrs.count
        (tspVisit 3 1) = 1
    ∧ tspMtz 3 1 2
        ∈ ((tspGenerate ⟨CountParam.value 3, (1, 1), none⟩ ⟨fun _ => 0, 0⟩).1.2.2).constrs := by
  have h := tsp_structure_C5 ⟨CountParam.value 3, (1, 1), none⟩ ⟨fun _ => 0, 0⟩
    (by decide)
  exact ⟨(h.1 1 (by decide)).1,
    h.2.2 1 2 (by decide) (by decide) (by decide) (by decide) (by decide)⟩

/-- The association-sampling while-loop of `SetCover/SetCover.py` (lines
63-70), embedded with explicit fuel: while the association set has fewer than
`target` elements, draw `i = randint(1, nSets)`, `j = randint(1, nElems)` and
insert the pair.  `none` means the fuel ran out with the loop condition still
true; `some` is a genuine loop exit. -/
def assocLoop (nSets nElems target : Int) :
    Nat → Finset (Int × Int) → RandState → Option (Finset (Int × Int) × RandState)
  | 0, a, r => if (a.card : Int) < target then none else some (a, r)
  | fuel + 1, a, r =>
    if (a.card : Int) < target then
      let di := randint 1 nSets r
      let dj := randint 1 nElems di.2
      assocLoop nSets nElems target fuel (insert (di.1, dj.1) a) dj.2
    else some (a, r)

/-- The pairs the loop would accumulate in `fuel` iterations if it never
stopped: the same draws as `assocLoop`, without the exit condition. -/
def assocDraws (nSets nElems : Int) :
    Nat → Finset (Int × Int) → RandState → Finset (Int × Int)
  | 0, a, _ => a
  | fuel + 1, a, r =>
    let di := randint 1 nSets r
    let dj := randint 1 nElems di.2
    assocDraws nSets nElems fuel (insert (di.1, dj.1) a) dj.2

/-- `num_associations = int(self.density * total_associations)` of
`SetCover/SetCover.py`. -/
def assocTarget (density : Rat) (nSets nElems : Int) : Int :=
  pyInt (density * ((nSets * nElems : Int) : Rat))

/-- The feasibility-repair loop of `SetCover/SetCover.py` (lines 81-85): for
each element in order, if no set contains it, add it to a randomly chosen set
(`random.choice` over the `nSets` keys is one raw draw reduced modulo the
number of sets). -/
def repairLoop : List Int → List (Finset Int) → RandState → List (Finset Int) × RandState
  | [], sets, r => (sets, r)
  | e :: es, sets, r =>
    if sets.any (fun s => decide (e ∈ s)) then repairLoop es sets r
    else
      let k := r.stream r.pos % sets.length
      repairLoop es (sets.set k (insert e (sets.getD k ∅))) ⟨r.stream, r.pos + 1⟩

/-- The coverage constraint of element `e`: `Σ_{i : e ∈ sets i} x_i ≥ 1`,
named `Cover_{e}` (sets are indexed 0-based here; Python's keys `1..n_sets`
map to indices by subtracting one). -/
def coverConstr (sets : List (Finset Int)) (e : Int) : LinConstr Nat Int :=
  ⟨some e,
   ((List.range sets.length).filter (fun i => decide (e ∈ sets.getD i ∅))).map
     (fun i => ((1 : Rat), i)),
   CRel.ge, 1⟩

/-- The Gurobi model of `SetCover/SetCover.py`: binary selection variables,
minimize total cost, one coverage constraint per element. -/
def setCoverModel (sets : List (Finset Int)) (costs : List Int)
    (elements : List Int) : LPModel Nat Int :=
  ⟨(List.range sets.length).map (fun i => (i, VType.binary)),
   Sense.minimize,
   (List.range sets.length).map (fun i => ((costs.getD i 0 : Rat), i)),
   elements.map (coverConstr sets)⟩

/-- Parameter attributes of a `SetCover/SetCover.py` `Generator` (first call:
the count attributes still hold their range tuples). -/
structure SetCoverGen where
  n_sets : Int × Int
  n_elements : Int × Int
  density : Rat
  cost_range : Int × Int
deriving DecidableEq, Repr

/-- `Generator.generate_instance` of `SetCover/SetCover.py` with explicit
fuel for the association while-loop: draws the set and element counts, runs
the association loop, builds the sets (`sets[i] = {j : (i, j) ∈
associations}`), draws the costs, repairs feasibility, and assembles the
model.  `none` reports that the association loop did not finish within the
fuel. -/
def setCoverGenerate (fuel : Nat) (g : SetCoverGen) (r : RandState) :
    Option ((List (Finset Int) × List Int × List Int × LPModel Nat Int) × RandState) :=
  let dS := randint g.n_sets.1 g.n_sets.2 r
  let dE := randint g.n_elements.1 g.n_elements.2 dS.2
  let nS := dS.1.toNat
  let nE := dE.1.toNat
  let elements := (List.range nE).map (fun (j : Nat) => (j : Int) + 1)
  let target := assocTarget g.density dS.1 dE.1
  match assocLoop dS.1 dE.1 target fuel ∅ dE.2 with
  | none => none
  | some ar =>
    let sets0 := (List.range nS).map
      (fun (k : Nat) => (ar.1.filter (fun p => p.1 = (k : Int) + 1)).image Prod.snd)
    let costs := randList g.cost_range.1 g.cost_range.2 nS ar.2
    let repaired := repairLoop elements sets0 costs.2
    some ((repaired.1, costs.1, elements,
           setCoverModel repaired.1 costs.1 elements), repaired.2)

/-- Value of a linear constraint's left-hand side under an assignment. -/
def evalTerms {ν κ : Type} (x : ν → Rat) (c : LinConstr ν κ) : Rat :=
  (c.terms.map (fun t => t.1 * x t.2)).sum

/-- Satisfaction of a linear constraint by an assignment. -/
def satisfies {ν κ : Type} (x : ν → Rat) (c : LinConstr ν κ) : Prop :=
  match c.rel with
  | CRel.le => evalTerms x c ≤ c.rhs
  | CRel.ge => c.rhs ≤ evalTerms x c
  | CRel.eq => evalTerms x c = c.rhs

theorem assocLoop_card_le (nS nE t : Int) (fuel : Nat) :
    ∀ (a : Finset (Int × Int)) (r : RandState) s r',
      (a.card : Int) ≤ t → assocLoop nS nE t fuel a r = some (s, r') →
      (s.card : Int) = t := by
  induction fuel with
  | zero =>
    intro a r s r' hle h
    unfold assocLoop at h
    split at h
    · exact absurd h (by simp)
    · rename_i hnlt
      obtain ⟨rfl, rfl⟩ : a = s ∧ r = r' := by simpa using h
      omega
  | succ fuel ih =>
    intro a r s r' hle h
    unfold assocLoop at h
    split at h
    · rename_i hlt
      refine ih _ _ _ _ ?_ h
      have hci := Finset.card_insert_le
        ((randint 1 nS r).1, (randint 1 nE (randint 1 nS r).2).1) a
      have hci' : (((insert ((randint 1 nS r).1, (randint 1 nE (randint 1 nS r).2).1)
          a).card : Int)) ≤ (a.card : Int) + 1 := by exact_mod_cast hci
      omega
    · rename_i hnlt
      obtain ⟨rfl, rfl⟩ : a = s ∧ r = r' := by simpa using h
      omega

theorem assocLoop_isSome (nS nE t : Int) (fuel : Nat) :
    ∀ (a : Finset (Int × Int)) (r : RandState),
      t ≤ ((assocDraws nS nE fuel a r).card : Int) →
      (assocLoop nS nE t fuel a r).isSome := by
  induction fuel with
  | zero =>
    intro a r h
    unfold assocDraws at h
    unfold assocLoop
    rw [if_neg (not_lt.mpr h)]
    rfl
  | succ fuel ih =>
    intro a r h
    unfold assocLoop
    by_cases hlt : (a.card : Int) < t
    · rw [if_pos hlt]
      refine ih _ _ ?_
      unfold assocDraws at h
      exact h
    · rw [if_neg hlt]
      rfl

theorem assocLoop_stuck (nS nE t : Int) (h1 : 1 ≤ nS) (h2 : 1 ≤ nE)
    (ht : nS * nE < t) (fuel : Nat) :
    ∀ (a : Finset (Int × Int)) (r : RandState),
      a ⊆ Finset.Icc 1 nS ×ˢ Finset.Icc 1 nE →
      assocLoop nS nE t fuel a r = none := by
  have hcard : ∀ a : Finset (Int × Int),
      a ⊆ Finset.Icc 1 nS ×ˢ Finset.Icc 1 nE → (a.card : Int) < t := by
    intro a ha
    have hle : a.card ≤ (Finset.Icc 1 nS ×ˢ Finset.Icc 1 nE).card :=
      Finset.card_le_card ha
    have hprod : (Finset.Icc 1 nS ×ˢ Finset.Icc 1 nE).card
        = nS.toNat * nE.toNat := by
      rw [Finset.card_product, Int.card_Icc, Int.card_Icc]
      congr 1 <;> congr 1 <;> omega
    rw [hprod] at hle
    have hle' : (a.card : Int) ≤ (nS.toNat : Int) * (nE.toNat : Int) := by
      exact_mod_cast hle
    rw [Int.toNat_of_nonneg (by omega), Int.toNat_of_nonneg (by omega)] at hle'
    omega
  induction fuel with
  | zero =>
    intro a r ha
    unfold assocLoop
    rw [if_pos (hcard a ha)]
  | succ fuel ih =>
    intro a r ha
    unfold assocLoop
    rw [if_pos (hcard a ha)]
    refine ih _ _ ?_
    refine Finset.insert_subset_iff.mpr ⟨?_, ha⟩
    refine Finset.mem_product.mpr ⟨?_, ?_⟩
    · exact Finset.mem_Icc.mpr
        ⟨(randint_bounds 1 nS r h1).1, (randint_bounds 1 nS r h1).2⟩
    · exact Finset.mem_Icc.mpr
        ⟨(randint_bounds 1 nE _ h2).1, (randint_bounds 1 nE _ h2).2⟩

/-- C8 (counterexample): the claim's second half fails.  With `density =
1.1 > 1`, `n_sets = 1`, `n_elements = 2`, Python's `int()` truncation gives
`num_associations = int(1.1 * 2) = 2`, which equals the number of distinct
pairs, so on a stream that produces both pairs the loop DOES reach its exit
condition. -/
theorem assoc_loop_density_cex :
    (1 : Rat) < 11/10 ∧
    assocTarget (11/10) 1 2 = 2 ∧
    (assocLoop 1 2 (assocTarget (11/10) 1 2) 2 ∅ ⟨fun n => n / 2, 0⟩).isSome = true := by
  have ht : assocTarget (11/10) 1 2 = 2 := by
    unfold assocTarget pyInt
    rw [if_neg (by norm_num)]
    rw [show ((11 : Rat)/10 * (((1 : Int) * 2 : Int) : Rat)) = 11/5 by norm_num]
    rw [Int.floor_eq_iff]
    norm_num
  refine ⟨by norm_num, ht, ?_⟩
  rw [ht]
  decide

/-- C8 (amended): embedded as a function of the random stream with explicit
fuel, the association-sampling while-loop terminates on every stream whose
draws reach `int(density * n_sets * n_elements)` distinct pairs within the
fuel, and on exit the association set has exactly that many pairs (for
`density ≥ 0` and nonnegative counts); and whenever the target
`int(density * n_sets * n_elements)` strictly exceeds the number
`n_sets * n_elements` of distinct pairs — which holds for large enough
`density > 1` but, by the counterexample, not for every `density > 1` — the
loop can never reach its exit condition. -/
theorem assoc_loop_C8 :
    (∀ (density : Rat) (nS nE : Int) (fuel : Nat) (r : RandState),
       0 ≤ density → 0 ≤ nS → 0 ≤ nE →
       assocTarget density nS nE ≤ ((assocDraws nS nE fuel ∅ r).card : Int) →
       ∃ s r', assocLoop nS nE (assocTarget density nS nE) fuel ∅ r = some (s, r') ∧
         (s.card : Int) = assocTarget density nS nE)
    ∧ (∀ (density : Rat) (nS nE : Int) (fuel : Nat) (r : RandState),
       1 ≤ nS → 1 ≤ nE → nS * nE < assocTarget density nS nE →
       assocLoop nS nE (assocTarget density nS nE) fuel ∅ r = none) := by
  constructor
  · intro density nS nE fuel r hd hs he hdr
    have hsome := assocLoop_isSome nS nE (assocTarget density nS nE) fuel ∅ r hdr
    obtain ⟨⟨s, r'⟩, hsr⟩ := Option.isSome_iff_exists.mp hsome
    have hq : (0 : Rat) ≤ density * ((nS * nE : Int) : Rat) := by
      refine mul_nonneg hd ?_
      have : (0 : Int) ≤ nS * nE := mul_nonneg hs he
      exact_mod_cast this
    have ht0 : 0 ≤ assocTarget density nS nE := by
      unfold assocTarget
      rw [pyInt_eq_floor _ hq]
      exact Int.le_floor.mpr (by simpa using hq)
    refine ⟨s, r', hsr, ?_⟩
    exact assocLoop_card_le nS nE _ fuel ∅ r s r' (by simpa using ht0) hsr
  · intro density nS nE fuel r h1 h2 ht
    exact assocLoop_stuck nS nE _ h1 h2 ht fuel ∅ r (Finset.empty_subset _)

/-- C8 (witness): the termination half at density 1 on a 1×1 pair space with
a stream that hits the single pair at once, and the non-termination half at
density 3 (target 3 > 1 pair). -/
theorem assoc_loop_C8_witness :
    (∃ s r', assocLoop 1 1 (assocTarget 1 1 1) 1 ∅ ⟨fun _ => 0, 0⟩ = some (s, r') ∧
       (s.card : Int) = assocTarget 1 1 1)
    ∧ assocLoop 1 1 (assocTarget 3 1 1) 0 ∅ ⟨fun _ => 0, 0⟩ = none := by
  have h1 : assocTarget 1 1 1 = 1 := by
    unfold assocTarget pyInt
    rw [if_neg (by norm_num)]
    rw [show ((1 : Rat) * (((1 : Int) * 1 : Int) : Rat)) = 1 by norm_num]
    exact Int.floor_one
  have h3 : assocTarget 3 1 1 = 3 := by
    unfold assocTarget pyInt
    rw [if_neg (by norm_num)]
    rw [show ((3 : Rat) * (((1 : Int) * 1 : Int) : Rat)) = 3 by norm_num]
    rw [Int.floor_eq_iff]
    norm_num
  refine ⟨assoc_loop_C8.1 1 1 1 1 ⟨fun _ => 0, 0⟩ (by norm_num) (by decide) (by decide)
     (by rw [h1]; decide),
   assoc_loop_C8.2 3 1 1 0 ⟨fun _ => 0, 0⟩ (by decide) (by decide)
     (by rw [h3]; decide)⟩

theorem repairLoop_length (es : List Int) :
    ∀ (sets : List (Finset Int)) (r : RandState),
      ((repairLoop es sets r).1).length = sets.length := by
  induction es with
  | nil => intro sets r; rfl
  | cons e es ih =>
    intro sets r
    unfold repairLoop
    split
    · exact ih _ _
    · rw [ih]
      simp

theorem getD_set_self (l : List (Finset Int)) (k : Nat) (x : Finset Int)
    (h : k < l.length) : (l.set k x).getD k ∅ = x := by
  simp [List.getD_eq_getElem?_getD, List.getElem?_set_self', List.getElem?_eq_getElem h]

theorem getD_set_ne (l : List (Finset Int)) (k i : Nat) (x : Finset Int)
    (h : i ≠ k) : (l.set k x).getD i ∅ = l.getD i ∅ := by
  simp [List.getD_eq_getElem?_getD, List.getElem?_set_ne (Ne.symm h)]

theorem repairLoop_mono (es : List Int) :
    ∀ (sets : List (Finset Int)) (r : RandState) (i : Nat),
      sets.getD i ∅ ⊆ ((repairLoop es sets r).1).getD i ∅ := by
  induction es with
  | nil => intro sets r i; exact subset_rfl
  | cons e es ih =>
    intro sets r i
    unfold repairLoop
    split
    · exact ih _ _ i
    · refine subset_trans ?_ (ih _ _ i)
      cases hs : sets with
      | nil => simp [List.getD]
      | cons s0 tl =>
        rw [← hs]
        have hlen : 0 < sets.length := by rw [hs]; simp
        have hk : (r.stream r.pos % sets.length) < sets.length :=
          Nat.mod_lt _ hlen
        by_cases hik : i = r.stream r.pos % sets.length
        · subst hik
          rw [getD_set_self _ _ _ hk]
          exact Finset.subset_insert _ _
        · rw [getD_set_ne _ _ _ _ hik]

theorem repairLoop_covers (es : List Int) :
    ∀ (sets : List (Finset Int)) (r : RandState), sets ≠ [] →
      ∀ e ∈ es, ∃ i, i < ((repairLoop es sets r).1).length ∧
        e ∈ ((repairLoop es sets r).1).getD i ∅ := by
  induction es with
  | nil => intro sets r hne e he; simp at he
  | cons e' es ih =>
    intro sets r hne e he
    rcases List.mem_cons.mp he with rfl | he
    · unfold repairLoop
      split
      · rename_i hany
        obtain ⟨s, hs, hes⟩ := List.any_eq_true.mp hany
        have hes' : e ∈ s := of_decide_eq_true hes
        obtain ⟨i, hi, hgi⟩ := List.mem_iff_getElem.mp hs
        have hgd : sets.getD i ∅ = s := by
          rw [List.getD_eq_getElem?_getD, List.getElem?_eq_getElem hi, hgi]
          rfl
        refine ⟨i, ?_, ?_⟩
        · rw [repairLoop_length]; exact hi
        · exact repairLoop_mono es sets r i (hgd ▸ hes')
      · have hk : (r.stream r.pos % sets.length) < sets.length :=
          Nat.mod_lt _ (List.length_pos.mpr hne)
        refine ⟨r.stream r.pos % sets.length, ?_, ?_⟩
        · rw [repairLoop_length, List.length_set]; exact hk
        · refine repairLoop_mono es _ _ _ ?_
          rw [getD_set_self _ _ _ hk]
          exact Finset.mem_insert_self _ _
    · unfold repairLoop
      split
      · exact ih sets r hne e he
      · refine ih _ _ ?_ e he
        have hlen : (sets.set (r.stream r.pos % sets.length)
            (insert e' (sets.getD (r.stream r.pos % sets.length) ∅))).length
            = sets.length := List.length_set _ _ _
        intro hnil
        rw [hnil] at hlen
        exact hne (List.length_eq_zero.mp hlen.symm)

theorem sum_map_one {α : Type} (l : List α) :
    (l.map (fun _ => (1 : Rat))).sum = l.length := by
  induction l with
  | nil => simp
  | cons a t ih => simp [ih, add_comm]

theorem coverConstr_covered (sets : List (Finset Int)) (e : Int)
    (h : ∃ i, i < sets.length ∧ e ∈ sets.getD i ∅) :
    (coverConstr sets e).terms ≠ [] ∧ satisfies (fun _ => 1) (coverConstr sets e) := by
  obtain ⟨i, hi, he⟩ := h
  have hmem : i ∈ (List.range sets.length).filter
      (fun i => decide (e ∈ sets.getD i ∅)) :=
    List.mem_filter.mpr ⟨List.mem_range.mpr hi, decide_eq_true he⟩
  have hne : (List.range sets.length).filter
      (fun i => decide (e ∈ sets.getD i ∅)) ≠ [] := by
    intro hnil
    rw [hnil] at hmem
    exact List.not_mem_nil i hmem
  constructor
  · simp only [coverConstr, ne_eq, List.map_eq_nil_iff]
    exact hne
  · simp only [satisfies, coverConstr, evalTerms, List.map_map]
    have hcalc : ((List.range sets.length).filter
        (fun i => decide (e ∈ sets.getD i ∅))).map
          ((fun t : Rat × Nat => t.1 * (fun _ => (1 : Rat)) t.2) ∘
            (fun i => ((1 : Rat), i)))
        = ((List.range sets.length).filter
            (fun i => decide (e ∈ sets.getD i ∅))).map (fun _ => (1 : Rat)) := by
      refine List.map_congr_left ?_
      intro a _
      simp
    rw [hcalc, sum_map_one]
    have hlen : 1 ≤ ((List.range sets.length).filter
        (fun i => decide (e ∈ sets.getD i ∅))).length :=
      List.length_pos.mpr hne
    exact_mod_cast hlen

theorem getD_mem (l : List (Finset Int)) (i : Nat) (h : i < l.length) :
    l.getD i ∅ ∈ l := by
  rw [List.getD_eq_getElem?_getD, List.getElem?_eq_getElem h]
  exact List.getElem_mem h

/-- C7: whenever `SetCover`'s `generate_instance` returns (the association
loop finished) and the configured set-count range is at least 1, the
feasibility-repair loop has put every element of the universe into at least
one set; consequently every coverage constraint of the returned model has at
least one variable on its left-hand side and the all-ones assignment
satisfies every constraint of the model. -/
theorem setcover_feasible_C7 (fuel : Nat) (g : SetCoverGen) (r : RandState)
    (out : (List (Finset Int) × List Int × List Int × LPModel Nat Int) × RandState)
    (h : setCoverGenerate fuel g r = some out)
    (h1 : 1 ≤ g.n_sets.1) (h2 : g.n_sets.1 ≤ g.n_sets.2) :
    (∀ e ∈ out.1.2.2.1, ∃ s ∈ out.1.1, e ∈ s) ∧
    (∀ c ∈ (out.1.2.2.2).constrs, c.terms ≠ []) ∧
    (∀ c ∈ (out.1.2.2.2).constrs, satisfies (fun _ => 1) c) := by
  obtain ⟨ns, ne, dens, cr⟩ := g
  simp only at h1 h2
  simp only [setCoverGenerate] at h
  split at h
  · exact absurd h (by simp)
  · rename_i ar hA
    obtain rfl := Option.some.inj h
    have hnS : 1 ≤ ((randint ns.1 ns.2 r).1).toNat := by
      have hlb := (randint_bounds ns.1 ns.2 r h2).1
      omega
    have hs0 : ((List.range ((randint ns.1 ns.2 r).1).toNat).map
        (fun (k : Nat) => (ar.1.filter (fun p => p.1 = (k : Int) + 1)).image Prod.snd)) ≠ [] := by
      intro hnil
      rw [List.map_eq_nil_iff, List.range_eq_nil] at hnil
      omega
    have hcov := repairLoop_covers
      ((List.range ((randint ne.1 ne.2 (randint ns.1 ns.2 r).2).1).toNat).map
        (fun (j : Nat) => (j : Int) + 1))
      _ ((randList cr.1 cr.2 ((randint ns.1 ns.2 r).1).toNat ar.2).2) hs0
    refine ⟨?_, ?_, ?_⟩
    · intro e he
      obtain ⟨i, hi, hei⟩ := hcov e he
      exact ⟨_, getD_mem _ i hi, hei⟩
    · intro c hc
      obtain ⟨e, he, rfl⟩ := List.mem_map.mp hc
      refine (coverConstr_covered _ e ?_).1
      obtain ⟨i, hi, hei⟩ := hcov e he
      exact ⟨i, hi, hei⟩
    · intro c hc
      obtain ⟨e, he, rfl⟩ := List.mem_map.mp hc
      refine (coverConstr_covered _ e ?_).2
      obtain ⟨i, hi, hei⟩ := hcov e he
      exact ⟨i, hi, hei⟩

/-- C7 (witness): the theorem applied to a concrete 1-set, 1-element run
(density 1) whose generated model is `setCoverModel [{1}] [1] [1]`. -/
theorem setcover_feasible_C7_witness :
    (∀ e ∈ ([1] : List Int), ∃ s ∈ ([{1}] : List (Finset Int)), e ∈ s) ∧
    (∀ c ∈ (setCoverModel [{1}] [1] [1]).constrs, c.terms ≠ []) ∧
    (∀ c ∈ (setCoverModel [{1}] [1] [1]).constrs, satisfies (fun _ => 1) c) := by
  have htar : assocTarget 1 1 1 = 1 := by
    unfold assocTarget pyInt
    rw [if_neg (by norm_num)]
    rw [show ((1 : Rat) * (((1 : Int) * 1 : Int) : Rat)) = 1 by norm_num]
    exact Int.floor_one
  have h : setCoverGenerate 1 ⟨(1, 1), (1, 1), 1, (1, 1)⟩ ⟨fun _ => 0, 0⟩
      = some (([{1}], [1], [1], setCoverModel [{1}] [1] [1]), ⟨fun _ => 0, 5⟩) := by
    simp only [setCoverGenerate]
    rw [show (randint 1 1 (⟨fun _ => 0, 0⟩ : RandState)) = (1, ⟨fun _ => 0, 1⟩) from rfl]
    rw [show (randint 1 1 (⟨fun _ => 0, 1⟩ : RandState)) = (1, ⟨fun _ => 0, 2⟩) from rfl]
    simp only
    rw [htar]
    rfl
  exact setcover_feasible_C7 1 ⟨(1, 1), (1, 1), 1, (1, 1)⟩ ⟨fun _ => 0, 0⟩
    (([{1}], [1], [1], setCoverModel [{1}] [1] [1]), ⟨fun _ => 0, 5⟩) h
    (by decide) (by decide)

/-- A solved TSP model as `print_solution` sees it: the Gurobi status code
(`GRB.OPTIMAL = 2`), the objective value, and each variable with its
solution value (`getVars` order; `x i j` is the `route[...]`-named variable,
so `VarName.startswith('route')` corresponds to matching that constructor). -/
structure TSPSolved where
  status : Int
  objVal : Rat
  tvars : List (TSPVar × Rat)
deriving DecidableEq

/-- One line printed by TSP's `print_solution`, by the values it formats
(string formatting itself is not modelled). -/
inductive TSPOut where
  | msg (s : String)
  | objVal (v : Rat)
  | routeLine (route : List Nat)
  | segment (a b : Nat) (d : Int)
  | stats (n : Nat) (total : Int) (avg : Rat)
deriving DecidableEq, Repr

/-- The inner `for v in model.getVars()` scan: the first `route` variable
leaving `current` with value `> 0.5`, if any. -/
def findNext (tvars : List (TSPVar × Rat)) (current : Nat) : Option Nat :=
  tvars.findSome? (fun w =>
    match w.1 with
    | TSPVar.x a b => if a = current ∧ 1/2 < w.2 then some b else none
    | TSPVar.u _ => none)

/-- The route-extraction `for _ in range(len(self.cities))` loop. -/
def routeLoop (tvars : List (TSPVar × Rat)) :
    Nat → Nat → List Nat → List Nat
  | 0, _, route => route
  | k + 1, current, route =>
    match findNext tvars current with
    | none => route
    | some nxt => routeLoop tvars k nxt (route ++ [current])

/-- `self.distances[(a, b)]`: a `KeyError` when the key is absent. -/
def distLookup (dists : List ((Nat × Nat) × Int)) (k : Nat × Nat) :
    Except String Int :=
  match dists.lookup k with
  | some d => Except.ok d
  | none => Except.error "KeyError"

/-- The segment-printing loop: one `segment` line per consecutive route pair
plus the accumulated total distance. -/
def segItems (dists : List ((Nat × Nat) × Int)) :
    List Nat → Except String (List TSPOut × Int)
  | [] => Except.ok ([], 0)
  | [_] => Except.ok ([], 0)
  | a :: b :: rest => do
    let d ← distLookup dists (a, b)
    let rec_ ← segItems dists (b :: rest)
    Except.ok (TSPOut.segment a b d :: rec_.1, d + rec_.2)

/-- `Generator.print_solution` of `TSP/TSP.py` as a state-passing function:
the returned generator/model state is the input one (the method only reads),
and the second component is the printed output, or the exception escaping the
method (`IndexError` from `route[0]` on an empty route, `KeyError` from a
missing distance key).  On a non-optimal status it prints one message and
returns before touching any variable. -/
def tspPrintSolution (inst : TSPInstance) (m : TSPSolved) :
    (TSPInstance × TSPSolved) × Except String (List TSPOut) :=
  if m.status ≠ 2 then
    ((inst, m), Except.ok [TSPOut.msg "No optimal solution found."])
  else
    if inst.n = 0 then
      ((inst, m), Except.error "IndexError: list index out of range")
    else
      match routeLoop m.tvars inst.n 0 [] with
      | [] => ((inst, m), Except.error "IndexError: list index out of range")
      | r0 :: rest =>
        match segItems inst.distances ((r0 :: rest) ++ [r0]) with
        | Except.error e => ((inst, m), Except.error e)
        | Except.ok si =>
          ((inst, m),
           Except.ok ([TSPOut.msg "=== Traveling Salesman Solution ===",
                       TSPOut.objVal m.objVal,
                       TSPOut.routeLine ((r0 :: rest) ++ [r0])]
                      ++ si.1
                      ++ [TSPOut.stats inst.n si.2 ((si.2 : Rat) / (inst.n : Rat))]))

/-- Instance data `print_solution` of `Portfolio/Portfolio.py` reads from the
generator object (asset list, expected returns, volatilities). -/
structure PortfolioData where
  assets : List Nat
  returns : List (Nat × Rat)
  volatilities : List (Nat × Rat)
deriving DecidableEq

/-- A variable of the Portfolio model: `Weights[asset_i]` or
`PortfolioVariance`. -/
inductive PortVar where
  | weight (i : Nat)
  | portVar
deriving DecidableEq, Repr

/-- A solved Portfolio model: status code and variable values. -/
structure PortfolioSolved where
  status : Int
  pvars : List (PortVar × Rat)
deriving DecidableEq

/-- One line printed by Portfolio's `print_solution`, by the values it
formats (the risk line carries the variance whose square root is printed). -/
inductive POut where
  | msg (s : String)
  | riskOfVariance (v : Rat)
  | allocation (asset : Nat) (w ret vol : Rat)
  | stats (n : Nat) (portRet maxW minW herf : Rat)
deriving DecidableEq, Repr

/-- Python's `max()` / `min()` over a list of values: `ValueError` on an
empty sequence. -/
def pyMax : List Rat → Except String Rat
  | [] => Except.error "ValueError: max() arg is an empty sequence"
  | x :: xs => Except.ok (xs.foldl max x)

def pyMin : List Rat → Except String Rat
  | [] => Except.error "ValueError: min() arg is an empty sequence"
  | x :: xs => Except.ok (xs.foldl min x)

/-- `sum(weights[i] * self.returns[i] for i in self.assets)`: a `KeyError`
when an asset is missing from either dict. -/
def dotReturns (weights returns : List (Nat × Rat)) :
    List Nat → Except String Rat
  | [] => Except.ok 0
  | i :: is => do
    match weights.lookup i, returns.lookup i with
    | some w, some ret => do
      let rest ← dotReturns weights returns is
      Except.ok (w * ret + rest)
    | _, _ => Except.error "KeyError"

/-- The per-asset allocation table lines. -/
def allocLines (weights returns vols : List (Nat × Rat)) :
    List Nat → Except String (List POut)
  | [] => Except.ok []
  | i :: is => do
    match weights.lookup i, returns.lookup i, vols.lookup i with
    | some w, some ret, some vol => do
      let rest ← allocLines weights returns vols is
      Except.ok (POut.allocation i w ret vol :: rest)
    | _, _, _ => Except.error "KeyError"

/-- `Generator.print_solution` of `Portfolio/Portfolio.py` as a state-passing
function; as for TSP, every branch returns the input state unchanged, and on
a non-optimal status it prints one message and returns before reading any
variable. -/
def portfolioPrint (d : PortfolioData) (m : PortfolioSolved) :
    (PortfolioData × PortfolioSolved) × Except String (List POut) :=
  if m.status ≠ 2 then
    ((d, m), Except.ok [POut.msg "No optimal solution found."])
  else
    match m.pvars.lookup PortVar.portVar with
    | none =>
      ((d, m), Except.error "AttributeError: NoneType object has no attribute X")
    | some pv =>
      let weights := m.pvars.filterMap (fun w =>
        match w.1 with
        | PortVar.weight i => some (i, w.2)
        | PortVar.portVar => none)
      match dotReturns weights d.returns d.assets with
      | Except.error e => ((d, m), Except.error e)
      | Except.ok portRet =>
        match allocLines weights d.returns d.volatilities d.assets with
        | Except.error e => ((d, m), Except.error e)
        | Except.ok lines =>
          match pyMax (weights.map Prod.snd), pyMin (weights.map Prod.snd) with
          | Except.ok mx, Except.ok mn =>
            ((d, m),
             Except.ok ([POut.msg "=== Portfolio Optimization Results ===",
                         POut.riskOfVariance pv]
                        ++ lines
                        ++ [POut.stats d.assets.length portRet mx mn
                             ((weights.map (fun w => w.2 * w.2)).sum)]))
          | Except.error e, _ => ((d, m), Except.error e)
          | _, Except.error e => ((d, m), Except.error e)

/-- C10: for both `TSP/TSP.py` and `Portfolio/Portfolio.py`,
`print_solution` only formats and prints: it leaves the generator's stored
instance data (cities/distances, assets/returns/volatilities) and the solved
model unchanged in every branch; and when the model's status is not optimal
it prints exactly the message `No optimal solution found.` and returns, its
output independent of every variable value and objective value (any two
models with the same non-optimal status print the same thing). -/
theorem print_solution_C10 :
    (∀ (inst : TSPInstance) (m : TSPSolved),
       (tspPrintSolution inst m).1 = (inst, m) ∧
       (m.status ≠ 2 →
         (tspPrintSolution inst m).2
           = Except.ok [TSPOut.msg "No optimal solution found."] ∧
         ∀ m' : TSPSolved, m'.status = m.status →
           (tspPrintSolution inst m').2 = (tspPrintSolution inst m).2))
    ∧ (∀ (d : PortfolioData) (m : PortfolioSolved),
       (portfolioPrint d m).1 = (d, m) ∧
       (m.status ≠ 2 →
         (portfolioPrint d m).2
           = Except.ok [POut.msg "No optimal solution found."] ∧
         ∀ m' : PortfolioSolved, m'.status = m.status →
           (portfolioPrint d m').2 = (portfolioPrint d m).2)) := by
  constructor
  · intro inst m
    refine ⟨?_, ?_⟩
    · unfold tspPrintSolution
      split
      · rfl
      · split
        · rfl
        · split
          · rfl
          · split <;> rfl
    · intro hst
      refine ⟨?_, ?_⟩
      · unfold tspPrintSolution
        rw [if_pos hst]
      · intro m' hst'
        unfold tspPrintSolution
        rw [if_pos hst, if_pos (by rw [hst']; exact hst)]
  · intro d m
    refine ⟨?_, ?_⟩
    · unfold portfolioPrint
      split
      · rfl
      · split
        · rfl
        · dsimp only
          split
          · rfl
          · split
            · rfl
            · split <;> rfl
    · intro hst
      refine ⟨?_, ?_⟩
      · unfold portfolioPrint
        rw [if_pos hst]
      · intro m' hst'
        unfold portfolioPrint
        rw [if_pos hst, if_pos (by rw [hst']; exact hst)]

/-- C10 (witness): the non-optimal branches at concrete instances (status 0
for TSP, status 3 for Portfolio), plus the frame equalities there. -/
theorem print_solution_C10_witness :
    (tspPrintSolution ⟨2, [((0, 1), 5), ((1, 0), 7)]⟩ ⟨0, 12, [(TSPVar.x 0 1, 1)]⟩).1
      = (⟨2, [((0, 1), 5), ((1, 0), 7)]⟩, ⟨0, 12, [(TSPVar.x 0 1, 1)]⟩) ∧
    (tspPrintSolution ⟨2, [((0, 1), 5), ((1, 0), 7)]⟩ ⟨0, 12, [(TSPVar.x 0 1, 1)]⟩).2
      = Except.ok [TSPOut.msg "No optimal solution found."] ∧
    (portfolioPrint ⟨[0], [(0, 1/10)], [(0, 1/5)]⟩ ⟨3, []⟩).1
      = (⟨[0], [(0, 1/10)], [(0, 1/5)]⟩, ⟨3, []⟩) ∧
    (portfolioPrint ⟨[0], [(0, 1/10)], [(0, 1/5)]⟩ ⟨3, []⟩).2
      = Except.ok [POut.msg "No optimal solution found."] := by
  have h1 := print_solution_C10.1 ⟨2, [((0, 1), 5), ((1, 0), 7)]⟩
    ⟨0, 12, [(TSPVar.x 0 1, 1)]⟩
  have h2 := print_solution_C10.2 ⟨[0], [(0, 1/10)], [(0, 1/5)]⟩ ⟨3, []⟩
  exact ⟨h1.1, (h1.2 (by decide)).1, h2.1, (h2.2 (by decide)).1⟩
